import Mathlib

/-!
Verification development for the BeamLink BLE communication library and the
NexState reactive state store (shallow embedding of
`lib/BeamLink/src/BeamLink.cpp` and `lib/BeamLink/src/NexState.cpp` /
`NexState.h`).

Machine integers are modelled as `Nat` with explicit reduction modulo the
machine width at the operations where the C++ code can wrap
(`uint32_t` statistics counters, `uint16_t` MTU arithmetic).  Outbound and
inbound message payloads (`std::string` used as a byte buffer) are modelled
as `List Nat` byte sequences.  External BLE-stack results (server/service/
characteristic creation, advertising start, the clock `millis()`) are
supplied through an explicit `StackEnv` record, since the stack itself is
out of scope.
-/

set_option autoImplicit false

namespace BeamLinkModel

/-- `uint32_t` increment (`counter++` on the statistics counters). -/
def inc32 (n : Nat) : Nat := (n + 1) % 4294967296

/-- Result flags of the external NimBLE stack calls made during `begin`,
plus the clock.  Each flag is the success/non-null result of one stack
call in `BeamLink.cpp`. -/
structure StackEnv where
  /-- `NimBLEDevice::createServer()` returns non-null. -/
  createServerOk : Bool
  /-- `pServer->createService(...)` returns non-null. -/
  createServiceOk : Bool
  /-- `pService->createCharacteristic(...)` returns non-null. -/
  createCharOk : Bool
  /-- `pService->start()` succeeds. -/
  serviceStartOk : Bool
  /-- `NimBLEDevice::getAdvertising()` returns non-null. -/
  getAdvertisingOk : Bool
  /-- `NimBLEDevice::startAdvertising()` succeeds. -/
  startAdvertisingOk : Bool
  /-- `millis()` at the time of the call. -/
  now : Nat
  deriving DecidableEq, Repr

/-- The state of one `BeamLink` object (fields of `class BeamLink` in
`BeamLink.h`), plus the stack-owned advertising flag and negotiated MTU,
which the code reads/writes through `NimBLEDevice`. -/
structure BeamLink where
  /-- `pServer != nullptr`. -/
  hasServer : Bool := false
  /-- `pChar != nullptr`. -/
  hasChar : Bool := false
  /-- `messageHandler != nullptr` (a handler was registered). -/
  hasHandler : Bool := false
  deviceConnected : Bool := false
  initialized : Bool := false
  deviceName : String := ""
  serviceUuid : String := ""
  characteristicUuid : String := ""
  messagesReceived : Nat := 0
  messagesSent : Nat := 0
  errorCount : Nat := 0
  startTime : Nat := 0
  /-- Whether the stack is currently advertising (stack-owned). -/
  advertising : Bool := false
  /-- `NimBLEDevice::getMTU()` (stack-owned, negotiated per connection). -/
  mtu : Nat := 23
  deriving DecidableEq, Repr

/-- Default UUIDs from `Uuids.h` (used when `begin` is passed null). -/
def BMLK_SERVICE_UUID : String := "bmlk-service-uuid"

def BMLK_CHARACTERISTIC_UUID : String := "bmlk-characteristic-uuid"

/-- Advertising-power clamp in `begin` (lines 82-85): warn and clamp to
`[-12, 9]` dBm when out of range. -/
def clampPower (p : Int) : Int :=
  if p < -12 || 9 < p then max (-12) (min 9 p) else p

/-- Advertising-interval clamp in `begin` (lines 87-90): warn and clamp to
`[20, 10240]` ms when out of range. -/
def clampInterval (i : Nat) : Nat :=
  if i < 20 || 10240 < i then max 20 (min 10240 i) else i

/-- `BeamLink::setupService` (lines 149-178): create the service, create
the read/write/write-nr/notify characteristic (recording the handle in
`pChar`), start the service. -/
def BeamLink.setupService (s : BeamLink) (env : StackEnv) : Bool × BeamLink :=
  if !s.hasServer then (false, s)
  else if !env.createServiceOk then (false, s)
  else if !env.createCharOk then (false, s)
  else
    let s := { s with hasChar := true }
    if !env.serviceStartOk then (false, s) else (true, s)

/-- Advertising interval conversion in `startAdvertising` (lines 190-195):
ms to 0.625 ms BLE units, stored into a `uint16_t`, then clamped to the
BLE-spec unit range `[32, 16384]`. -/
def advIntervalUnits (intervalMs : Nat) : Nat :=
  max 32 (min 16384 ((intervalMs * 16) / 10 % 65536))

/-- `BeamLink::startAdvertising` (lines 180-206): get the advertising
object, configure it, start advertising.  Only the stack results decide
success; the configuration calls go to the (out-of-scope) stack. -/
def BeamLink.startAdvertising (_s : BeamLink) (env : StackEnv)
    (intervalMs : Nat) : Bool :=
  if !env.getAdvertisingOk then false
  else
    let _units := advIntervalUnits intervalMs
    env.startAdvertisingOk

/-- `BeamLink::begin` (lines 69-147).  `deviceName`, `serviceUuid` and
`characteristicUuid` are `const char*`, modelled as `Option String`
(`none` = null pointer). -/
def BeamLink.begin (s : BeamLink) (env : StackEnv) (deviceName : Option String)
    (advPowerDbm : Int) (advIntervalMs : Nat)
    (serviceUuid characteristicUuid : Option String) : Bool × BeamLink :=
  if s.initialized then (false, s)
  else if deviceName.getD "" = "" then (false, s)
  else
    let _p := clampPower advPowerDbm
    let i := clampInterval advIntervalMs
    let s := { s with
      deviceName := deviceName.getD "",
      serviceUuid := serviceUuid.getD BMLK_SERVICE_UUID,
      characteristicUuid := characteristicUuid.getD BMLK_CHARACTERISTIC_UUID }
    if !env.createServerOk then (false, s)
    else
      let s := { s with hasServer := true }
      match s.setupService env with
      | (false, s) => (false, s)
      | (true, s) =>
        if !s.startAdvertising env i then (false, s)
        else
          (true, { s with
            initialized := true,
            advertising := true,
            startTime := env.now,
            messagesReceived := 0,
            messagesSent := 0,
            errorCount := 0 })

/-- `BeamLink::notify` (lines 212-240).  Returns
`(result, new state, transmitted frame)`; `none` means no notification was
written to the characteristic.  `maxSize` is the `uint16_t` computation
`getMTU() - 3`. -/
def BeamLink.notify (s : BeamLink) (msg : List Nat) :
    Bool × BeamLink × Option (List Nat) :=
  if !s.initialized || !s.hasChar || !s.deviceConnected then
    (false, { s with errorCount := inc32 s.errorCount }, none)
  else if msg.length = 0 then
    (false, { s with errorCount := inc32 s.errorCount }, none)
  else
    let maxSize := (s.mtu + 65533) % 65536
    if maxSize < msg.length then
      (true, { s with errorCount := inc32 s.errorCount,
                      messagesSent := inc32 s.messagesSent },
        some (msg.take maxSize))
    else
      (true, { s with messagesSent := inc32 s.messagesSent }, some msg)

/-- `RxCallbacks::onWrite` (lines 32-52): on a non-empty inbound value,
count it and (when a handler is registered) deliver the text; on an empty
value do nothing.  Returns `(new state, message delivered to the
handler)`. -/
def BeamLink.onWrite (s : BeamLink) (rx : List Nat) :
    BeamLink × Option (List Nat) :=
  if 0 < rx.length then
    let s := { s with messagesReceived := inc32 s.messagesReceived }
    if s.hasHandler then (s, some rx) else (s, none)
  else (s, none)

/-- `ServerCallbacks::onConnect` (lines 9-14). -/
def BeamLink.onConnect (s : BeamLink) : BeamLink :=
  { s with deviceConnected := true }

/-- `ServerCallbacks::onDisconnect` (lines 16-22): clear the connected
flag and call `NimBLEDevice::startAdvertising()` to re-arm advertising. -/
def BeamLink.onDisconnect (s : BeamLink) : BeamLink :=
  { s with deviceConnected := false, advertising := true }

/-- `BeamLink::onMessage` (lines 208-210): replace the handler slot. -/
def BeamLink.onMessage (s : BeamLink) : BeamLink :=
  { s with hasHandler := true }

/-- `BeamLink::resetStats` (lines 252-258). -/
def BeamLink.resetStats (s : BeamLink) (now : Nat) : BeamLink :=
  { s with messagesReceived := 0, messagesSent := 0, errorCount := 0,
           startTime := now }

/-- `BeamLink::isConnected` (header line 131). -/
def BeamLink.isConnected (s : BeamLink) : Bool := s.deviceConnected

/-- `BeamLink::getDeviceName` (header line 138). -/
def BeamLink.getDeviceName (s : BeamLink) : String := s.deviceName

/-- `BeamLink::getMTU` (lines 242-245). -/
def BeamLink.getMTU (s : BeamLink) : Nat :=
  if !s.initialized then 23 else s.mtu

/-- `BeamLink::getUptime` (lines 247-250), for a clock reading `now`. -/
def BeamLink.getUptime (s : BeamLink) (now : Nat) : Nat :=
  if !s.initialized then 0 else (now + (4294967296 - s.startTime % 4294967296)) % 4294967296

/-- The two-state connection state machine of the spec (§3
`ConnectionState`): the connected flag is the only datum. -/
inductive ConnState where
  | advertising
  | connected
  deriving DecidableEq, Repr

/-- The connection state as a function of the controller's flag. -/
def BeamLink.connState (s : BeamLink) : ConnState :=
  if s.deviceConnected then ConnState.connected else ConnState.advertising

end BeamLinkModel

namespace nexstate

/-- The closed set of value kinds held in the store's
`std::variant<StateValue<bool>, StateValue<int>, StateValue<float>,
StateValue<std::string>>` (`NexState.h` lines 379-384).  `float` is
modelled in fixed point as a signed count of millionths, matching the six
decimal places `std::to_string` prints. -/
inductive NexValue where
  | vbool (b : Bool)
  | vint (n : Int)
  | vfloat (micros : Int)
  | vstr (s : String)
  deriving DecidableEq, Repr

/-- The variant alternative (the template parameter `T`). -/
inductive Tag where
  | tbool
  | tint
  | tfloat
  | tstr
  deriving DecidableEq, Repr

/-- Which variant alternative a value inhabits. -/
def tagOf : NexValue → Tag
  | NexValue.vbool _ => Tag.tbool
  | NexValue.vint _ => Tag.tint
  | NexValue.vfloat _ => Tag.tfloat
  | NexValue.vstr _ => Tag.tstr

/-- Left-pad a decimal numeral to six digits (fractional part of the
`%f` rendering `std::to_string` uses for floats). -/
def pad6 (n : Nat) : String :=
  let s := toString n
  String.mk (List.replicate (6 - s.length) '0') ++ s

/-- `StateValue<T>::toString` (`NexState.h` lines 93-105): booleans as
`true`/`false`, integers via `std::to_string`, floats via
`std::to_string` (six decimals), strings wrapped in quotes. -/
def NexValue.toString : NexValue → String
  | NexValue.vbool b => if b then "true" else "false"
  | NexValue.vint n => ToString.toString n
  | NexValue.vfloat m =>
      (if m < 0 then "-" else "") ++
        ToString.toString (m.natAbs / 1000000) ++ "." ++ pad6 (m.natAbs % 1000000)
  | NexValue.vstr s => "\"" ++ s ++ "\""

/-- One `StateValue<T>` (`NexState.h` lines 64-111): current value,
previous value, changed flag.  `cur` and `prev` always inhabit the same
variant alternative. -/
structure StateEntry where
  cur : NexValue
  prev : NexValue
  changed : Bool
  deriving DecidableEq, Repr

/-- `StateValue<T>(initialValue)` (line 70-71): both values equal, flag
clear. -/
def freshEntry (v : NexValue) : StateEntry := ⟨v, v, false⟩

/-- `StateValue<T>::setValue` (lines 73-79): update and mark changed only
when the new value differs. -/
def StateEntry.setValue (e : StateEntry) (v : NexValue) : StateEntry :=
  if v = e.cur then e else ⟨v, e.cur, true⟩

/-- The type dispatch in `NexState::set` (lines 166-179): same variant
alternative updates in place via `setValue`; a different alternative
replaces the entry with a fresh `StateValue<T>(value)`. -/
def setEntry (e : StateEntry) (v : NexValue) : StateEntry :=
  if tagOf v = tagOf e.cur then e.setValue v else freshEntry v

/-- `DeviceInfo` (`NexState.h` lines 116-128). -/
structure DeviceInfo where
  deviceName : String := ""
  deviceId : String := ""
  deviceType : String := ""
  firmwareVersion : String := ""
  ledPin : Int := 2
  ledActiveHigh : Bool := true
  deriving DecidableEq, Repr

/-- `NexStateConfig` (`NexState.h` lines 133-141). -/
structure NexStateConfig where
  enableSerialOutput : Bool := true
  enableJsonFormat : Bool := true
  enableChangeDetection : Bool := true
  outputIntervalMs : Nat := 1000
  outputOnChange : Bool := true
  outputOnInterval : Bool := false
  deviceInfo : DeviceInfo := {}
  deriving DecidableEq, Repr

/-- The store's `std::unordered_map<std::string, StateValueVariant>`,
modelled as an association list with unique keys (iteration order is
unspecified in the source; the model keeps insertion order). -/
def lookupEntry : List (String × StateEntry) → String → Option StateEntry
  | [], _ => none
  | (k', e) :: rest, k => if k' = k then some e else lookupEntry rest k

/-- The find/update/emplace sequence of `NexState::set` on the map. -/
def updateEntries : List (String × StateEntry) → String → NexValue →
    List (String × StateEntry)
  | [], k, v => [(k, freshEntry v)]
  | (k', e) :: rest, k, v =>
      if k' = k then (k', setEntry e v) :: rest
      else (k', e) :: updateEntries rest k v

/-- The `NexState` store (`NexState.h` lines 146-403): configuration,
the value map, the single subscriber slot, and the interval timer. -/
structure NexState where
  config : NexStateConfig := {}
  entries : List (String × StateEntry) := []
  /-- `changeCallback != nullptr` (a subscriber is registered). -/
  changeSubscribed : Bool := false
  lastOutputTime : Nat := 0
  deriving DecidableEq, Repr

/-- Observable effects of one store operation: lines printed over serial
and invocations `(key, stringified value)` of the subscriber callback. -/
structure OutputEffects where
  serial : List String
  callbacks : List (String × String)
  deriving DecidableEq, Repr

/-- No output, no callback invocations. -/
def noOutput : OutputEffects := ⟨[], []⟩

/-- `NexState::hasChanged<T>` (lines 209-219): false when the key is
absent or holds a different variant alternative. -/
def NexState.hasChanged (s : NexState) (t : Tag) (k : String) : Bool :=
  match lookupEntry s.entries k with
  | some e => tagOf e.cur = t && e.changed
  | none => false

/-- `NexState::get<T>` (lines 192-202). -/
def NexState.get (s : NexState) (t : Tag) (k : String) (defaultValue : NexValue) :
    NexValue :=
  match lookupEntry s.entries k with
  | some e => if tagOf e.cur = t then e.cur else defaultValue
  | none => defaultValue

/-- `NexState::markAsRead<T>` (lines 225-234). -/
def NexState.markAsRead (s : NexState) (t : Tag) (k : String) : NexState :=
  { s with entries := s.entries.map fun p =>
      if p.1 = k ∧ tagOf p.2.cur = t then (p.1, { p.2 with changed := false })
      else p }

/-- `NexState::getChangedKeys` (lines 240-249). -/
def NexState.getChangedKeys (s : NexState) : List String :=
  (s.entries.filter fun p => p.2.changed).map Prod.fst

/-- `NexState::hasAnyChanged` (lines 255-262). -/
def NexState.hasAnyChanged (s : NexState) : Bool :=
  s.entries.any fun p => p.2.changed

/-- `NexState::markAllAsRead` (lines 267-271). -/
def NexState.markAllAsRead (s : NexState) : NexState :=
  { s with entries := s.entries.map fun p => (p.1, { p.2 with changed := false }) }

/-- One `"key":value` fragment of the JSON state object. -/
def entryPairJson (p : String × StateEntry) : String :=
  "\"" ++ p.1 ++ "\":" ++ p.2.cur.toString

/-- The loop of `getStateAsJson` (lines 313-319): all entries, dirty or
not, comma-separated. -/
def stateEntriesJson : List (String × StateEntry) → String
  | [] => ""
  | [p] => entryPairJson p
  | p :: rest => entryPairJson p ++ "," ++ stateEntriesJson rest

/-- `NexState::getStateAsJson` (lines 305-323). -/
def NexState.getStateAsJson (s : NexState) : String :=
  "\x7b\"device\":\"" ++ s.config.deviceInfo.deviceName ++
    "\",\"id\":\"" ++ s.config.deviceInfo.deviceId ++
    "\",\"type\":\"" ++ s.config.deviceInfo.deviceType ++
    "\",\"fw\":\"" ++ s.config.deviceInfo.firmwareVersion ++
    "\",\"state\":\x7b" ++ stateEntriesJson s.entries ++ "\x7d\x7d"

/-- The quote stripping in `getStateAsText` (lines 342-345). -/
def stripQuotes (v : String) : String :=
  if v.startsWith "\"" && v.endsWith "\"" then (v.drop 1).dropRight 1 else v

/-- One `key=value` fragment of the text rendering. -/
def entryPairText (p : String × StateEntry) : String :=
  p.1 ++ "=" ++ stripQuotes p.2.cur.toString

/-- The loop of `getStateAsText` (lines 336-349). -/
def stateEntriesText : List (String × StateEntry) → String
  | [] => ""
  | [p] => entryPairText p
  | p :: rest => entryPairText p ++ ", " ++ stateEntriesText rest

/-- `NexState::getStateAsText` (lines 329-352). -/
def NexState.getStateAsText (s : NexState) : String :=
  "Device: " ++ s.config.deviceInfo.deviceName ++
    " (ID: " ++ s.config.deviceInfo.deviceId ++
    ", Type: " ++ s.config.deviceInfo.deviceType ++
    ", FW: " ++ s.config.deviceInfo.firmwareVersion ++ ")" ++
    " | State: " ++ stateEntriesText s.entries

/-- `NexState::outputState` (lines 288-299), at clock reading `now`.
Prints nothing and changes nothing when serial output is disabled;
otherwise prints one snapshot line, clears all changed flags and rebases
the interval timer.  The stored subscriber callback is never invoked
anywhere in the source, so `callbacks` is always empty. -/
def NexState.outputState (s : NexState) (now : Nat) : NexState × OutputEffects :=
  if !s.config.enableSerialOutput then (s, noOutput)
  else
    let line := if s.config.enableJsonFormat then s.getStateAsJson
                else s.getStateAsText
    ({ s.markAllAsRead with lastOutputTime := now }, ⟨[line], []⟩)

/-- `NexState::checkAndOutput` (lines 390-394). -/
def NexState.checkAndOutput (s : NexState) (now : Nat) : NexState × OutputEffects :=
  if s.config.enableChangeDetection && s.hasAnyChanged then s.outputState now
  else (s, noOutput)

/-- `NexState::set<T>` (lines 164-184), at clock reading `now`. -/
def NexState.set (s : NexState) (now : Nat) (k : String) (v : NexValue) :
    NexState × OutputEffects :=
  let s := { s with entries := updateEntries s.entries k v }
  if s.config.outputOnChange then s.checkAndOutput now else (s, noOutput)

/-- `NexState::update` (lines 276-283), at clock reading `now`. -/
def NexState.update (s : NexState) (now : Nat) : NexState × OutputEffects :=
  if s.config.outputOnInterval &&
      s.config.outputIntervalMs ≤ now - s.lastOutputTime then
    let r := s.outputState now
    ({ r.1 with lastOutputTime := now }, r.2)
  else (s, noOutput)

/-- `NexState::subscribe` (lines 358-360): replace the subscriber slot. -/
def NexState.subscribe (s : NexState) : NexState :=
  { s with changeSubscribed := true }

/-- `NexState::clear` (lines 365-367). -/
def NexState.clear (s : NexState) : NexState :=
  { s with entries := [] }

/-- `NexState::size` (line 373). -/
def NexState.size (s : NexState) : Nat := s.entries.length

/-- The keys currently stored. -/
def keysOf (s : NexState) : List String := s.entries.map Prod.fst

end nexstate

namespace BeamLinkModel

/-- A `BeamLink` after a successful `begin` and a connect event: server,
characteristic and connection present, statistics at zero, default MTU. -/
def beamReady : BeamLink :=
  { hasServer := true, hasChar := true, hasHandler := false,
    deviceConnected := true, initialized := true, deviceName := "Dev",
    serviceUuid := BMLK_SERVICE_UUID,
    characteristicUuid := BMLK_CHARACTERISTIC_UUID, advertising := false }

/-- `beamReady` with a message handler registered. -/
def beamRx : BeamLink := { beamReady with hasHandler := true }

/-- A freshly constructed `BeamLink` (all defaults). -/
def beam0 : BeamLink := {}

/-- A stack environment whose `createServer` call fails. -/
def envServerFail : StackEnv :=
  { createServerOk := false, createServiceOk := true, createCharOk := true,
    serviceStartOk := true, getAdvertisingOk := true,
    startAdvertisingOk := true, now := 0 }

/-- A stack environment where every call succeeds. -/
def envAllOk : StackEnv :=
  { createServerOk := true, createServiceOk := true, createCharOk := true,
    serviceStartOk := true, getAdvertisingOk := true,
    startAdvertisingOk := true, now := 7 }

end BeamLinkModel

namespace nexstate

/-- A freshly constructed store with the default configuration. -/
def store0 : NexState := {}

/-- A store constructed with `outputOnChange` disabled. -/
def storeNoOut : NexState := { config := { outputOnChange := false } }

/-- A store constructed with serial output disabled, holding one dirty
entry. -/
def storeSerialOff : NexState :=
  { config := { enableSerialOutput := false },
    entries := [("ledOn", ⟨NexValue.vbool true, NexValue.vbool false, true⟩)] }

/-- A store with the default configuration, a registered subscriber and
one dirty entry. -/
def storeDirtySub : NexState :=
  { entries := [("ledOn", ⟨NexValue.vbool true, NexValue.vbool false, true⟩)],
    changeSubscribed := true }

end nexstate

open BeamLinkModel nexstate

section Lemmas

/-- `inc32` is a plain increment below the `uint32_t` ceiling. -/
theorem inc32_eq_succ {n : Nat} (h : n + 1 < 4294967296) : inc32 n = n + 1 := by
  unfold inc32; omega

/-- The `uint16_t` computation `getMTU() - 3` agrees with subtraction for
an in-range MTU. -/
theorem maxSize_eq {m : Nat} (h3 : 3 ≤ m) (hlt : m < 65536) :
    (m + 65533) % 65536 = m - 3 := by
  omega

end Lemmas

/-- C1: an outbound text longer than `MTU - 3` sent while initialized and
connected is truncated to its first `MTU - 3` bytes, the truncated frame
is still transmitted, `errors` and `sent` each increase by exactly one,
and `notify` returns `true`. -/
theorem claim_C1_notify_truncates (s : BeamLink) (msg : List Nat)
    (hinit : s.initialized = true) (hchar : s.hasChar = true)
    (hconn : s.deviceConnected = true)
    (hmtu3 : 3 ≤ s.mtu) (hmtu : s.mtu < 65536)
    (hlen : s.mtu - 3 < msg.length)
    (herr : s.errorCount + 1 < 4294967296)
    (hsent : s.messagesSent + 1 < 4294967296) :
    s.notify msg =
      (true, { s with errorCount := s.errorCount + 1,
                      messagesSent := s.messagesSent + 1 },
        some (msg.take (s.mtu - 3))) := by
  have hne : ¬ msg.length = 0 := by omega
  simp only [BeamLink.notify, hinit, hchar, hconn, Bool.not_true,
    Bool.or_self, Bool.false_or, if_false, hne, maxSize_eq hmtu3 hmtu,
    hlen, if_true, inc32_eq_succ herr, inc32_eq_succ hsent]
  simp

/-- Closed instance of C1 at a 21-byte message and the default 23-byte
MTU. -/
theorem claim_C1_notify_truncates_witness :
    beamReady.notify (List.range 21) =
      (true, { beamReady with errorCount := beamReady.errorCount + 1,
                              messagesSent := beamReady.messagesSent + 1 },
        some ((List.range 21).take (beamReady.mtu - 3))) :=
  claim_C1_notify_truncates beamReady (List.range 21) rfl rfl rfl
    (by decide) (by decide) (by decide) (by decide) (by decide)

/-- C6: `notify` transmits nothing, increments `errors` by exactly one
and returns `false` whenever the engine is not initialized, no peer is
connected, or the text is empty. -/
theorem claim_C6_notify_failure_paths (s : BeamLink) (msg : List Nat)
    (herr : s.errorCount + 1 < 4294967296)
    (h : s.initialized = false ∨ s.deviceConnected = false ∨ msg = []) :
    s.notify msg = (false, { s with errorCount := s.errorCount + 1 }, none) := by
  have hinc := inc32_eq_succ herr
  rcases h with h | h | h
  · simp [BeamLink.notify, h, hinc]
  · simp [BeamLink.notify, h, hinc]
  · cases hb : (!s.initialized || !s.hasChar || !s.deviceConnected) <;>
      simp [BeamLink.notify, hb, h, hinc]

/-- Closed instance of C6: a non-empty notify on a disconnected engine. -/
theorem claim_C6_notify_failure_paths_witness :
    ({ beamReady with deviceConnected := false } : BeamLink).notify [104, 105] =
      (false, { { beamReady with deviceConnected := false } with
                  errorCount :=
                    ({ beamReady with deviceConnected := false } : BeamLink).errorCount + 1 },
        none) :=
  claim_C6_notify_failure_paths { beamReady with deviceConnected := false }
    [104, 105] (by decide) (Or.inr (Or.inl rfl))

/-- C7: a disconnect event taken in the `Connected` state clears the
connected flag and re-arms advertising, returning the controller to
`Advertising`; the state space has no third alternative. -/
theorem claim_C7_disconnect_readvertises (s : BeamLink)
    (_hconn : s.connState = ConnState.connected) :
    s.onDisconnect.connState = ConnState.advertising ∧
    s.onDisconnect.isConnected = false ∧
    s.onDisconnect.advertising = true ∧
    ∀ s' : BeamLink, s'.connState = ConnState.advertising ∨
      s'.connState = ConnState.connected := by
  refine ⟨?_, ?_, ?_, ?_⟩
  · simp [BeamLink.onDisconnect, BeamLink.connState]
  · simp [BeamLink.onDisconnect, BeamLink.isConnected]
  · simp [BeamLink.onDisconnect]
  · intro s'
    by_cases h : s'.deviceConnected = true <;> simp [BeamLink.connState, h]

/-- Closed instance of C7 at a connected engine. -/
theorem claim_C7_disconnect_readvertises_witness :
    beamReady.onDisconnect.connState = ConnState.advertising ∧
    beamReady.onDisconnect.isConnected = false ∧
    beamReady.onDisconnect.advertising = true ∧
    ∀ s' : BeamLink, s'.connState = ConnState.advertising ∨
      s'.connState = ConnState.connected :=
  claim_C7_disconnect_readvertises beamReady (by decide)

/-- C8: `resetStats` zeroes the three counters and rebases `start_time`
to the current instant, leaving the device name, the connection state,
the initialized flag and the advertising flag unchanged. -/
theorem claim_C8_resetStats (s : BeamLink) (now : Nat) :
    (s.resetStats now).messagesReceived = 0 ∧
    (s.resetStats now).messagesSent = 0 ∧
    (s.resetStats now).errorCount = 0 ∧
    (s.resetStats now).startTime = now ∧
    (s.resetStats now).getDeviceName = s.getDeviceName ∧
    (s.resetStats now).isConnected = s.isConnected ∧
    (s.resetStats now).initialized = s.initialized ∧
    (s.resetStats now).advertising = s.advertising := by
  simp [BeamLink.resetStats, BeamLink.getDeviceName, BeamLink.isConnected]

/-- C10: with serial output disabled at construction, `outputState` (and
the on-change path `checkAndOutput`) return immediately: the store —
dirty flags and interval timer included — is unchanged and nothing is
emitted. -/
theorem claim_C10_outputState_serial_off (s : NexState) (now : Nat)
    (h : s.config.enableSerialOutput = false) :
    s.outputState now = (s, noOutput) ∧ s.checkAndOutput now = (s, noOutput) := by
  have h1 : s.outputState now = (s, noOutput) := by
    simp [NexState.outputState, h]
  refine ⟨h1, ?_⟩
  by_cases hc : (s.config.enableChangeDetection && s.hasAnyChanged) = true <;>
    simp [NexState.checkAndOutput, hc, h1]

/-- Closed instance of C10 on a dirty store built with serial output
disabled. -/
theorem claim_C10_outputState_serial_off_witness :
    storeSerialOff.outputState 42 = (storeSerialOff, noOutput) ∧
    storeSerialOff.checkAndOutput 42 = (storeSerialOff, noOutput) :=
  claim_C10_outputState_serial_off storeSerialOff 42 rfl

/-- C5 counterexample: an empty inbound frame does not increment the
error counter (the write callback ignores it entirely), refuting the
claim that empty frames are counted as errors. -/
theorem claim_C5_cex :
    (beamRx.onWrite []).1.errorCount = beamRx.errorCount ∧
    ¬ (beamRx.onWrite []).1.errorCount = beamRx.errorCount + 1 := by
  constructor
  · rfl
  · decide

/-- C5 as amended: an empty inbound frame is ignored outright — the
handler is not invoked, `received` is not counted, and the error counter
(and all other state) is left unchanged. -/
theorem claim_C5_empty_rx_ignored (s : BeamLink) :
    s.onWrite [] = (s, none) := by
  simp [BeamLink.onWrite]

/-- C2 counterexample: the very first `set` of a previously absent key
creates its entry with the changed flag clear (`StateValue<T>(value)`
initializes `changed = false`), so `hasChanged` is `false`, not `true`,
immediately after the first `set`. -/
theorem claim_C2_cex :
    ¬ ((store0.set 0 "ledOn" (NexValue.vbool true)).1.hasChanged
        Tag.tbool "ledOn" = true) := by
  decide

/-- Looking up the key just written by the map update of `NexState::set`. -/
theorem lookupEntry_updateEntries_self (l : List (String × StateEntry))
    (k : String) (v : NexValue) :
    lookupEntry (updateEntries l k v) k =
      some (match lookupEntry l k with
            | some e => setEntry e v
            | none => freshEntry v) := by
  induction l with
  | nil => simp [updateEntries, lookupEntry]
  | cons p rest ih =>
    obtain ⟨k', e⟩ := p
    by_cases hk : k' = k
    · simp [updateEntries, lookupEntry, hk]
    · simp [updateEntries, lookupEntry, hk, ih]

/-- With `outputOnChange` disabled, `set` is exactly the map update. -/
theorem set_entries_of_not_outputOnChange (s : NexState) (now : Nat)
    (k : String) (v : NexValue) (h : s.config.outputOnChange = false) :
    s.set now k v = ({ s with entries := updateEntries s.entries k v }, noOutput) := by
  simp [NexState.set, h]

/-- Looking up a key after the typed flag-clearing map of
`NexState::markAsRead`. -/
theorem lookupEntry_map_clear (l : List (String × StateEntry)) (t : Tag)
    (k : String) :
    lookupEntry (l.map fun p => if p.1 = k ∧ tagOf p.2.cur = t
        then (p.1, { p.2 with changed := false }) else p) k =
      (lookupEntry l k).map
        (fun e => if tagOf e.cur = t then { e with changed := false } else e) := by
  induction l with
  | nil => simp [lookupEntry]
  | cons p rest ih =>
    obtain ⟨k', e⟩ := p
    simp only [List.map_cons]
    by_cases hk : k' = k
    · by_cases ht : tagOf e.cur = t
      · rw [if_pos ⟨hk, ht⟩]
        simp [lookupEntry, hk, ht]
      · rw [if_neg (fun h => ht h.2)]
        simp [lookupEntry, hk, ht]
    · rw [if_neg (fun h => hk h.1)]
      simp [lookupEntry, hk, ih]

/-- C2 as amended: with the on-change output pass disabled (so that the
flag is observable), the first `set` of an absent key leaves
`hasChanged` false; a redundant second `set` with the same value leaves
it false; a `set` that changes the value makes it true; `markAsRead`
clears it again.  The dirty flag records "a value-changing `set` since
creation or the last `markAsRead`", not `current ≠ previous`. -/
theorem claim_C2_amended (s : NexState) (now : Nat) (k : String)
    (v w : NexValue)
    (hout : s.config.outputOnChange = false)
    (habs : lookupEntry s.entries k = none)
    (htag : tagOf w = tagOf v) (hne : w ≠ v) :
    ((s.set now k v).1.hasChanged (tagOf v) k = false) ∧
    (((s.set now k v).1.set now k v).1.hasChanged (tagOf v) k = false) ∧
    ((((s.set now k v).1.set now k v).1.set now k w).1.hasChanged
        (tagOf v) k = true) ∧
    (((((s.set now k v).1.set now k v).1.set now k w).1.markAsRead
        (tagOf v) k).hasChanged (tagOf v) k = false) := by
  have hs1 : (s.set now k v).1 = { s with entries := updateEntries s.entries k v } := by
    rw [set_entries_of_not_outputOnChange s now k v hout]
  have e1 : lookupEntry (s.set now k v).1.entries k = some (freshEntry v) := by
    rw [hs1]
    simp [lookupEntry_updateEntries_self, habs]
  have hcfg1 : (s.set now k v).1.config = s.config := by rw [hs1]
  have hout1 : (s.set now k v).1.config.outputOnChange = false := by
    rw [hcfg1]; exact hout
  have hs2 : ((s.set now k v).1.set now k v).1 =
      { (s.set now k v).1 with
          entries := updateEntries (s.set now k v).1.entries k v } := by
    rw [set_entries_of_not_outputOnChange _ now k v hout1]
  have e2 : lookupEntry ((s.set now k v).1.set now k v).1.entries k =
      some (freshEntry v) := by
    rw [hs2]
    simp [lookupEntry_updateEntries_self, e1, setEntry, StateEntry.setValue,
      freshEntry]
  have hout2 : ((s.set now k v).1.set now k v).1.config.outputOnChange = false := by
    rw [hs2]; exact hout1
  have hs3 : (((s.set now k v).1.set now k v).1.set now k w).1 =
      { ((s.set now k v).1.set now k v).1 with
          entries := updateEntries ((s.set now k v).1.set now k v).1.entries k w } := by
    rw [set_entries_of_not_outputOnChange _ now k w hout2]
  have e3 : lookupEntry (((s.set now k v).1.set now k v).1.set now k w).1.entries k =
      some ⟨w, v, true⟩ := by
    rw [hs3]
    simp only [lookupEntry_updateEntries_self, e2]
    simp [setEntry, StateEntry.setValue, freshEntry, htag, hne]
  refine ⟨?_, ?_, ?_, ?_⟩
  · simp [NexState.hasChanged, e1, freshEntry]
  · simp [NexState.hasChanged, e2, freshEntry]
  · simp [NexState.hasChanged, e3, htag]
  · simp only [NexState.hasChanged, NexState.markAsRead,
      lookupEntry_map_clear, e3, Option.map_some]
    simp [htag]

/-- Closed instance of C2 as amended, on a store built with
`outputOnChange` disabled, key `"ledOn"` and boolean values. -/
theorem claim_C2_amended_witness :
    ((storeNoOut.set 0 "ledOn" (NexValue.vbool true)).1.hasChanged
        (tagOf (NexValue.vbool true)) "ledOn" = false) ∧
    (((storeNoOut.set 0 "ledOn" (NexValue.vbool true)).1.set 0 "ledOn"
        (NexValue.vbool true)).1.hasChanged
        (tagOf (NexValue.vbool true)) "ledOn" = false) ∧
    ((((storeNoOut.set 0 "ledOn" (NexValue.vbool true)).1.set 0 "ledOn"
        (NexValue.vbool true)).1.set 0 "ledOn" (NexValue.vbool false)).1.hasChanged
        (tagOf (NexValue.vbool true)) "ledOn" = true) ∧
    (((((storeNoOut.set 0 "ledOn" (NexValue.vbool true)).1.set 0 "ledOn"
        (NexValue.vbool true)).1.set 0 "ledOn" (NexValue.vbool false)).1.markAsRead
        (tagOf (NexValue.vbool true)) "ledOn").hasChanged
        (tagOf (NexValue.vbool true)) "ledOn" = false) :=
  claim_C2_amended storeNoOut 0 "ledOn" (NexValue.vbool true)
    (NexValue.vbool false) rfl rfl rfl (by decide)

/-- C3 (code bug evidence): on a store with a registered subscriber and
exactly one changed key, `outputState` invokes the subscriber callback
zero times — the stored `changeCallback` is never called anywhere in the
source, although the header documents it as "Function to call when state
changes".  The rest of the claimed behaviour (dirty flags cleared, timer
rebased) does hold under the default configuration. -/
theorem claim_C3_subscriber_never_invoked :
    storeDirtySub.changeSubscribed = true ∧
    storeDirtySub.getChangedKeys = ["ledOn"] ∧
    (storeDirtySub.outputState 5).2.callbacks = [] ∧
    (storeDirtySub.outputState 5).1.hasAnyChanged = false ∧
    (storeDirtySub.outputState 5).1.lastOutputTime = 5 := by
  refine ⟨rfl, rfl, rfl, rfl, rfl⟩

/-- C4 counterexample: on a never-initialized engine, a `begin` that
fails because the stack cannot create the server still returns with the
stored device name already overwritten — a failing `begin` does mutate
observable state, refuting "no state mutated" for stack-failure paths. -/
theorem claim_C4_cex :
    (beam0.begin envServerFail (some "X") 9 100 none none).1 = false ∧
    ¬ ((beam0.begin envServerFail (some "X") 9 100 none none).2.getDeviceName
        = beam0.getDeviceName) := by
  decide

/-- C4 as amended: every listed failure of `begin` returns `false`; a
second `begin` without an intervening `end` mutates nothing at all (so
all getters keep the first call's parameters); and on the stack-failure
paths the initialized flag, all three statistics counters, `start_time`
and the connection flag are untouched — but the stored device name and
UUIDs may already have been overwritten (see the counterexample). -/
theorem claim_C4_amended (s : BeamLink) (env : StackEnv) (n : Option String)
    (p : Int) (i : Nat) (su cu : Option String) :
    (s.initialized = true → s.begin env n p i su cu = (false, s)) ∧
    (s.initialized = false →
      (env.createServerOk = false ∨ env.createServiceOk = false ∨
        env.createCharOk = false ∨ env.serviceStartOk = false ∨
        env.getAdvertisingOk = false ∨ env.startAdvertisingOk = false) →
      (s.begin env n p i su cu).1 = false ∧
      (s.begin env n p i su cu).2.initialized = false ∧
      (s.begin env n p i su cu).2.messagesReceived = s.messagesReceived ∧
      (s.begin env n p i su cu).2.messagesSent = s.messagesSent ∧
      (s.begin env n p i su cu).2.errorCount = s.errorCount ∧
      (s.begin env n p i su cu).2.startTime = s.startTime ∧
      (s.begin env n p i su cu).2.deviceConnected = s.deviceConnected) := by
  constructor
  · intro h; simp [BeamLink.begin, h]
  · intro h henv
    by_cases hn : n.getD "" = "" <;>
      by_cases h1 : env.createServerOk = true <;>
      by_cases h2 : env.createServiceOk = true <;>
      by_cases h3 : env.createCharOk = true <;>
      by_cases h4 : env.serviceStartOk = true <;>
      by_cases h5 : env.getAdvertisingOk = true <;>
      by_cases h6 : env.startAdvertisingOk = true <;>
      simp_all [BeamLink.begin, BeamLink.setupService, BeamLink.startAdvertising]

/-- Closed instances of C4 as amended: a double `begin` on an initialized
engine changes nothing, and a server-creation failure on a fresh engine
leaves the flag, counters and connection state untouched. -/
theorem claim_C4_amended_witness :
    (beamReady.begin envAllOk (some "Y") 9 100 none none = (false, beamReady)) ∧
    ((beam0.begin envServerFail (some "Y") 9 100 none none).1 = false ∧
      (beam0.begin envServerFail (some "Y") 9 100 none none).2.initialized = false ∧
      (beam0.begin envServerFail (some "Y") 9 100 none none).2.messagesReceived
        = beam0.messagesReceived ∧
      (beam0.begin envServerFail (some "Y") 9 100 none none).2.messagesSent
        = beam0.messagesSent ∧
      (beam0.begin envServerFail (some "Y") 9 100 none none).2.errorCount
        = beam0.errorCount ∧
      (beam0.begin envServerFail (some "Y") 9 100 none none).2.startTime
        = beam0.startTime ∧
      (beam0.begin envServerFail (some "Y") 9 100 none none).2.deviceConnected
        = beam0.deviceConnected) :=
  ⟨(claim_C4_amended beamReady envAllOk (some "Y") 9 100 none none).1 rfl,
    (claim_C4_amended beam0 envServerFail (some "Y") 9 100 none none).2 rfl
      (Or.inl rfl)⟩

/-- Every stored entry's rendered `"key":value` fragment occurs inside the
comma-joined state object, whether or not the entry is dirty. -/
theorem entry_fragment_infix_entriesJson (l : List (String × StateEntry))
    (k : String) (e : StateEntry) (h : lookupEntry l k = some e) :
    List.IsInfix (entryPairJson (k, e)).data (stateEntriesJson l).data := by
  induction l with
  | nil => simp [lookupEntry] at h
  | cons p rest ih =>
    obtain ⟨k', e'⟩ := p
    by_cases hk : k' = k
    · have he : e' = e := by simpa [lookupEntry, hk] using h
      subst hk
      subst he
      cases rest with
      | nil => simp [stateEntriesJson]
      | cons q qs =>
        refine ⟨[], (("," ++ stateEntriesJson (q :: qs)).data), ?_⟩
        simp [stateEntriesJson, String.data_append]
    · have h' : lookupEntry rest k = some e := by
        simpa [lookupEntry, hk] using h
      cases rest with
      | nil => simp [lookupEntry] at h'
      | cons q qs =>
        obtain ⟨a, b, hab⟩ := ih h'
        refine ⟨(entryPairJson (k', e') ++ ",").data ++ a, b, ?_⟩
        simp only [stateEntriesJson, String.data_append, List.append_assoc]
        rw [← List.append_assoc a, hab]

/-- The state object is an infix of the full JSON snapshot. -/
theorem entriesJson_infix_getStateAsJson (s : NexState) :
    List.IsInfix (stateEntriesJson s.entries).data s.getStateAsJson.data := by
  refine ⟨("\x7b\"device\":\"" ++ s.config.deviceInfo.deviceName ++
      "\",\"id\":\"" ++ s.config.deviceInfo.deviceId ++
      "\",\"type\":\"" ++ s.config.deviceInfo.deviceType ++
      "\",\"fw\":\"" ++ s.config.deviceInfo.firmwareVersion ++
      "\",\"state\":\x7b").data, ("\x7d\x7d" : String).data, ?_⟩
  simp [NexState.getStateAsJson, String.data_append]

/-- The key set after the map update of `set`: existing keys are kept,
an absent key is inserted once. -/
theorem map_fst_updateEntries (l : List (String × StateEntry)) (k : String)
    (v : NexValue) :
    (updateEntries l k v).map Prod.fst =
      if k ∈ l.map Prod.fst then l.map Prod.fst else l.map Prod.fst ++ [k] := by
  induction l with
  | nil => simp [updateEntries]
  | cons p rest ih =>
    obtain ⟨k', e⟩ := p
    by_cases hk : k' = k
    · simp [updateEntries, hk]
    · have hk' : ¬ k = k' := fun h => hk h.symm
      by_cases hm : k ∈ rest.map Prod.fst <;>
        simp [updateEntries, hk, hk', hm, ih]

/-- `markAllAsRead` does not change the key set. -/
theorem keysOf_markAllAsRead (s : NexState) :
    keysOf s.markAllAsRead = keysOf s := by
  simp [keysOf, NexState.markAllAsRead, List.map_map, Function.comp]

/-- `outputState` does not change the key set. -/
theorem keysOf_outputState (s : NexState) (now : Nat) :
    keysOf (s.outputState now).1 = keysOf s := by
  unfold NexState.outputState
  cases hb : s.config.enableSerialOutput <;>
    simp [hb, keysOf, NexState.markAllAsRead, List.map_map, Function.comp]

/-- `checkAndOutput` does not change the key set. -/
theorem keysOf_checkAndOutput (s : NexState) (now : Nat) :
    keysOf (s.checkAndOutput now).1 = keysOf s := by
  unfold NexState.checkAndOutput
  by_cases hc : (s.config.enableChangeDetection && s.hasAnyChanged) = true <;>
    simp [hc, keysOf_outputState]

/-- C9: the JSON snapshot is complete — it renders one `"key":value`
fragment for every stored key, dirty or clean; `set` adds exactly the new
key (and never drops one), only `clear` empties the key set; and the
structured value rendering is `true`/`false` for booleans, a numeric
literal for integers, and a quoted string for text. -/
theorem claim_C9_snapshot_completeness :
    (∀ (s : NexState) (k : String) (e : StateEntry),
        lookupEntry s.entries k = some e →
        List.IsInfix (entryPairJson (k, e)).data s.getStateAsJson.data) ∧
    (∀ (s : NexState) (now : Nat) (k : String) (v : NexValue),
        keysOf (s.set now k v).1 =
          if k ∈ keysOf s then keysOf s else keysOf s ++ [k]) ∧
    (∀ s : NexState, keysOf s.clear = []) ∧
    ((NexValue.vbool true).toString = "true" ∧
      (NexValue.vbool false).toString = "false" ∧
      (∀ n : Int, (NexValue.vint n).toString = ToString.toString n) ∧
      (∀ str : String, (NexValue.vstr str).toString = "\"" ++ str ++ "\"")) := by
  refine ⟨?_, ?_, ?_, rfl, rfl, fun n => rfl, fun str => rfl⟩
  · intro s k e h
    exact (entry_fragment_infix_entriesJson s.entries k e h).trans
      (entriesJson_infix_getStateAsJson s)
  · intro s now k v
    by_cases ho : s.config.outputOnChange = true
    · simp only [NexState.set, ho, if_true]
      rw [keysOf_checkAndOutput]
      simp [keysOf, map_fst_updateEntries]
    · simp only [NexState.set, ho, if_false]
      simp [keysOf, map_fst_updateEntries]
  · intro s
    simp [keysOf, NexState.clear]

/-- Closed instance of C9: the dirty `"ledOn"` entry's fragment occurs in
the snapshot of the concrete store. -/
theorem claim_C9_snapshot_completeness_witness :
    List.IsInfix (entryPairJson ("ledOn",
        ⟨NexValue.vbool true, NexValue.vbool false, true⟩)).data
      storeDirtySub.getStateAsJson.data :=
  claim_C9_snapshot_completeness.1 storeDirtySub "ledOn"
    ⟨NexValue.vbool true, NexValue.vbool false, true⟩ rfl
